import Mathlib

/-!
Shallow embedding of the cache-aside persistence coordinator of
`adequate-db-client` (src/index.ts) together with its two store
collaborators (src/postgres.ts, src/redis.ts).

Modelling conventions, used consistently below:

* The Postgres store is modelled as a record of tables, each table a list
  of typed rows mirroring the columns the source reads and writes.
  SQL timestamps are modelled as `Int` (`new Date(x).getTime()` in the
  source turns them into numbers; only their ordering matters here).
* The Redis store is modelled as a record of partial maps from the literal
  cache-key strings the source builds (for example `"guild_" ++ guildID`)
  to typed values.  JSON (de)serialisation of cached collections is the
  identity in this model: a cached JSON array is stored as the typed list
  it encodes.  Redis hashes are association lists from field name to
  string value, since `hset`/`hgetall` work field-wise.
* `Math.random`-based id generation (`generateStorageID`) and
  SERIAL/`RETURNING id` values are nondeterministic inputs of the program;
  the corresponding operations take the freshly generated identifier as an
  explicit argument.
* Store-call failures: the operations whose claims quantify over store
  failures take one `Bool` per store call (`redisFail`, `pgFail`) meaning
  "that call's promise rejects".  `Promise.all` starts both calls, so the
  effect of the successful call still applies and any rejection makes the
  whole operation reject; this is exactly how the flags are interpreted.
  Operations whose claims never inject faults are modelled on the
  fault-free path.
* JavaScript truthiness matters in several places (`if (!x)`,
  `x ? y : null`, `x || null`): for strings, `undefined` and `""` are
  falsy, every other string truthy; an empty array is truthy.
* ioredis converts `null`/`undefined` command arguments to the empty
  string (deprecated-argument coercion); node-postgres binds an
  `undefined` query value as SQL `NULL`.
-/

/-- JS truthiness of a possibly-absent string: `undefined` and `""` are
falsy, anything else truthy. -/
def truthy : Option String → Bool
  | none => false
  | some s => !(s == "")

/-- `x || null` on a possibly-absent string. -/
def jsOrNull : Option String → Option String
  | none => none
  | some s => if s == "" then none else some s

/-- `parseInt` on a string. A non-numeric argument yields `NaN` in JS,
modelled as `none`; no theorem below depends on that corner. -/
def jsParseInt (s : String) : Option Int := s.toInt?

/-- Word-splitting of `snakeCase` from the `change-case` package on the
character list: a separator is inserted at each lower/digit→upper boundary
and before the last upper of an upper…upper-lower run, and everything is
lowercased. -/
def snakeChars : List Char → List Char
  | [] => []
  | [c] => [c.toLower]
  | c1 :: c2 :: rest =>
    if (c1.isLower || c1.isDigit) && c2.isUpper then
      c1.toLower :: '_' :: snakeChars (c2 :: rest)
    else
      match rest with
      | c3 :: _ =>
        if c1.isUpper && c2.isUpper && c3.isLower then
          c1.toLower :: '_' :: snakeChars (c2 :: rest)
        else
          c1.toLower :: snakeChars (c2 :: rest)
      | [] => c1.toLower :: snakeChars (c2 :: rest)

/-- `snakeCase` from `change-case`, as used by the source on setting
names such as `"cmdChannel"` or `"storageID"` (→ `"storage_id"`). -/
def snakeCase (s : String) : String := ⟨snakeChars s.data⟩

/-- A value passed as `unknown` to a field update, as bound into a
parameterized statement or redis command. -/
inductive DBVal
  | str (s : String)
  | int (n : Int)
  | bool (b : Bool)
  | null
deriving Repr, DecidableEq

/-- ioredis argument coercion of a value to the string actually stored. -/
def DBVal.toRedisString : DBVal → String
  | .str s => s
  | .int n => toString n
  | .bool b => if b then "true" else "false"
  | .null => ""

/-- Write into a non-null text column; a type-mismatched write (which
Postgres would reject with a cast error) keeps the old value — no
theorem exercises that corner. -/
def DBVal.asStr (v : DBVal) (old : String) : String :=
  match v with
  | .str s => s
  | .int n => toString n
  | _ => old

/-- Write into a nullable text column. -/
def DBVal.asOptStr : DBVal → Option String
  | .str s => some s
  | .int n => some (toString n)
  | _ => none

/-- Write into a nullable integer column. -/
def DBVal.asOptInt : DBVal → Option Int
  | .int n => some n
  | .str s => s.toInt?
  | _ => none

/-- Write into a non-null integer column (mismatch keeps the old value). -/
def DBVal.asIntOr (v : DBVal) (old : Int) : Int :=
  match v with
  | .int n => n
  | _ => old

/-- Write into a boolean column (mismatch keeps the old value). -/
def DBVal.asBoolOr (v : DBVal) (old : Bool) : Bool :=
  match v with
  | .bool b => b
  | _ => old

/-- Row of the `guilds` table. `guild_storage_id` is nullable: the
restore path can write SQL `NULL` into it. The `guild_prefix` column is
modelled by the field `guildPrefix`. -/
structure GuildRow where
  guild_id : String
  guild_language : String
  guildPrefix : String
  guild_cmd_channel : Option String
  guild_fake_threshold : Option Int
  guild_storage_id : Option String
deriving Repr, DecidableEq

/-- Row of the `guild_storages` table (a storage epoch). -/
structure StorageRow where
  guild_id : String
  storage_id : String
  created_at : Int
deriving Repr, DecidableEq

/-- Row of the `members` table. -/
structure MemberRow where
  guild_id : String
  user_id : String
  storage_id : String
  invites_regular : Int
  invites_fake : Int
  invites_bonus : Int
  invites_leaves : Int
deriving Repr, DecidableEq

/-- Row of the `guild_alerts` table. -/
structure AlertRow where
  id : Int
  guild_id : String
  invite_count : Int
  channel_id : String
  message : String
  alert_type : String
deriving Repr, DecidableEq

/-- Row of the `subscriptions` table. The columns omitted by the INSERT in
`createGuildSubscription` (`cancelled`, `sub_invalidated`) default to
`false`. -/
structure SubRow where
  id : String
  expires_at : Int
  created_at : Int
  sub_label : Option String
  guilds_count : Int
  patreon_user_id : Option String
  cancelled : Bool
  sub_invalidated : Bool
deriving Repr, DecidableEq

/-- Row of the `guilds_subscriptions` join table. -/
structure GuildsSubRow where
  sub_id : String
  guild_id : String
deriving Repr, DecidableEq

/-- Row of the `guild_plugins` table; `plugin_data` is the opaque JSON
blob, kept as a string. -/
structure PluginRow where
  guild_id : String
  plugin_name : String
  plugin_data : String
deriving Repr, DecidableEq

/-- Row of the `guild_blacklisted_users` table. -/
structure BlacklistRow where
  guild_id : String
  user_id : String
deriving Repr, DecidableEq

/-- The durable (Postgres) store: the tables the coordinator touches. -/
structure PgState where
  guilds : List GuildRow
  guild_storages : List StorageRow
  members : List MemberRow
  guild_alerts : List AlertRow
  subscriptions : List SubRow
  guilds_subscriptions : List GuildsSubRow
  guild_plugins : List PluginRow
  guild_blacklisted_users : List BlacklistRow
deriving Repr, DecidableEq

/-- A redis hash: association list from field name to string value. -/
abbrev Hash := List (String × String)

/-- `hget`-style field lookup in a hash. -/
def hashGet (h : Hash) (f : String) : Option String :=
  (h.find? (fun p => p.1 == f)).map (fun p => p.2)

/-- `hset` of one field: replace any existing binding of the field.
(The binding is re-appended; a redis hash is unordered, and only
`hashGet` observes it.) -/
def hashSet (h : Hash) (f v : String) : Hash :=
  (h.filter (fun p => !(p.1 == f))) ++ [(f, v)]

/-- `hmset`/`hset` of several fields in order. -/
def hashSetMany (h : Hash) (fs : List (String × String)) : Hash :=
  fs.foldl (fun acc p => hashSet acc p.1 p.2) h

/-- Cached guild alert, as stored (JSON) under `guild_alerts_<id>`. -/
structure CachedAlert where
  id : Int
  guildID : String
  inviteCount : Int
  channelID : String
  message : String
  type : String
deriving Repr, DecidableEq

/-- Cached guild plugin, as stored (JSON) under `guild_plugins_<id>`. -/
structure GuildPlugin where
  guildID : String
  pluginName : String
  pluginData : String
deriving Repr, DecidableEq

/-- Cached guild subscription, as stored (JSON) under
`guild_subscriptions_<id>`. The objects written by
`createGuildSubscription` lack the `cancelled`/`subInvalidated`
properties, hence the `Option Bool`. -/
structure CachedSub where
  id : String
  expiresAt : Int
  createdAt : Int
  subLabel : Option String
  guildsCount : Int
  patreonUserID : Option String
  cancelled : Option Bool := none
  subInvalidated : Option Bool := none
deriving Repr, DecidableEq

/-- Leaderboard entry, both as returned and as cached (JSON) under
`guild_leaderboard_<guild>_<storage>`. -/
structure LBEntry where
  guildID : String
  userID : String
  invites : Int
  regular : Int
  leaves : Int
  bonus : Int
  fake : Int
deriving Repr, DecidableEq

/-- The volatile (Redis) store. One partial map per cache-key family; the
families use disjoint key prefixes in the source (`guild_`,
`guild_alerts_`, `guild_plugins_`, `guild_blacklisted_`,
`guild_subscriptions_`, `guild_leaderboard_`), so keeping them separate is
faithful for every state the claims exercise. `leaderboardTTL` records the
`expire` seconds attached to a leaderboard key. -/
structure RedisState where
  guildHash : String → Option Hash
  alertsStr : String → Option (List CachedAlert)
  pluginsStr : String → Option (List GuildPlugin)
  blacklistStr : String → Option (List String)
  subsStr : String → Option (List CachedSub)
  leaderboardStr : String → Option (List LBEntry)
  leaderboardTTL : String → Option Nat

/-- Errors an operation can surface to its caller. -/
inductive DBError
  | unknownSetting (msg : String)
  | storeFailure
  | jsTypeError
deriving Repr, DecidableEq

/-- Caller-visible outcome of an operation together with both stores
after it settles. -/
structure DBOut (α : Type) where
  res : Except DBError α
  pg : PgState
  redis : RedisState

/-- Cache key `guild_${guildID}` (guild settings hash). -/
def guildKey (g : String) : String := "guild_" ++ g

/-- Cache key `guild_alerts_${guildID}`. -/
def alertsKey (g : String) : String := "guild_alerts_" ++ g

/-- Cache key `guild_plugins_${guildID}`. -/
def pluginsKey (g : String) : String := "guild_plugins_" ++ g

/-- Cache key `guild_blacklisted_${guildID}`. -/
def blacklistedKey (g : String) : String := "guild_blacklisted_" ++ g

/-- Cache key `guild_subscriptions_${guildID}`. -/
def subsKey (g : String) : String := "guild_subscriptions_" ++ g

/-- Cache key `guild_leaderboard_${guildID}_${storageID}`. -/
def leaderboardKey (g s : String) : String :=
  "guild_leaderboard_" ++ g ++ "_" ++ s

/-- Stable insertion step of a descending sort by an integer key: the new
element goes in front of the first element whose key does not exceed it.
Inserting the earlier element in front of equal keys is exactly what makes
the sort stable. -/
def insertDescBy {α : Type} (key : α → Int) (a : α) : List α → List α
  | [] => [a]
  | x :: xs => if key x ≤ key a then a :: x :: xs else x :: insertDescBy key a xs

/-- Stable descending sort by an integer key. Models both the JS
`sort((a, b) => b.createdAt - a.createdAt)` (stable since ES2019) and the
SQL `ORDER BY expr DESC` (whose tie order is collapsed to this one). -/
def sortDescBy {α : Type} (key : α → Int) : List α → List α
  | [] => []
  | x :: xs => insertDescBy key x (sortDescBy key xs)

/-- `GuildStorage` result shape of `fetchGuildStorages`
(`createdAt = new Date(row.created_at).getTime()`). -/
structure GuildStorage where
  guildID : String
  storageID : String
  createdAt : Int
deriving Repr, DecidableEq

/-- Row-wise formatting of `fetchGuildStorages`
(`createdAt = new Date(row.created_at).getTime()` is the identity on the
modelled timestamp). -/
def storageOfRow (r : StorageRow) : GuildStorage :=
  { guildID := r.guild_id, storageID := r.storage_id, createdAt := r.created_at }

/-- `fetchGuildStorages`: `SELECT * FROM guild_storages WHERE guild_id = $1`
formatted row-wise. A pure read (its cache is never consulted). -/
def fetchGuildStorages (pg : PgState) (guildID : String) : List GuildStorage :=
  (pg.guild_storages.filter (fun r => r.guild_id == guildID)).map storageOfRow

/-- The shared idiom
`storages.filter(s => s.storageID !== current).sort((a, b) => b.createdAt - a.createdAt)[0]?.storageID`
of `countGuildInvites` and `restoreGuildInvites`. -/
def previousStorageID (pg : PgState) (guildID currentStorageID : String) : Option String :=
  ((sortDescBy (fun s => s.createdAt)
      ((fetchGuildStorages pg guildID).filter (fun s => !(s.storageID == currentStorageID)))).head?).map
    (fun s => s.storageID)

/-- Result shape of `countGuildInvites`. -/
structure CountGuildInvites where
  regular : Int
  leaves : Int
  bonus : Int
  fake : Int
deriving Repr, DecidableEq

/-- `SUM(f) FROM members WHERE guild_id = g AND storage_id = p` — the
grouped aggregate of `countGuildInvites`. -/
def sumInvites (ms : List MemberRow) (g p : String) (f : MemberRow → Int) : Int :=
  ((ms.filter (fun m => m.guild_id == g && m.storage_id == p)).map f).sum

/-- `countGuildInvites`. `if (!previousStorageID) return null` is JS
truthiness: both `undefined` and the empty string take the null return.
With no matching member rows the grouped SELECT returns no rows and each
`rows[0]?.x || 0` falls back to `0`, which coincides with the empty sum. -/
def countGuildInvites (pg : PgState) (guildID currentStorageID : String) :
    Option CountGuildInvites :=
  match previousStorageID pg guildID currentStorageID with
  | none => none
  | some p =>
    if p == "" then none
    else
      some
        { regular := sumInvites pg.members guildID p (fun m => m.invites_regular)
          leaves := sumInvites pg.members guildID p (fun m => m.invites_leaves)
          bonus := sumInvites pg.members guildID p (fun m => m.invites_bonus)
          fake := sumInvites pg.members guildID p (fun m => m.invites_fake) }

/-- `restoreGuildStorage`. The TS parameter type of `storageID` is
`string`, but `restoreGuildInvites` can pass `undefined` through, modelled
as `none`: node-postgres binds it as SQL `NULL`, ioredis coerces it to
`""`. Both store calls are issued concurrently and awaited with
`Promise.all`: each effect lands regardless of the other call's outcome
and either rejection rejects the operation (flags `redisFail`/`pgFail`
inject the rejections). -/
def restoreGuildStorage (pg : PgState) (rd : RedisState) (guildID : String)
    (storageID : Option String) (redisFail pgFail : Bool) : DBOut Unit :=
  let rd' :=
    if redisFail then rd
    else
      { rd with
        guildHash := fun k =>
          if k = guildKey guildID then
            some (hashSet ((rd.guildHash k).getD []) "storageID"
              (match storageID with | some s => s | none => ""))
          else rd.guildHash k }
  let pg' :=
    if pgFail then pg
    else
      { pg with
        guilds := pg.guilds.map (fun r =>
          if r.guild_id == guildID then { r with guild_storage_id := storageID } else r) }
  { res := if redisFail || pgFail then .error .storeFailure else .ok ()
    pg := pg', redis := rd' }

/-- `restoreGuildInvites`: select the most recent other epoch (possibly
`undefined`) and hand it to `restoreGuildStorage` unchecked. -/
def restoreGuildInvites (pg : PgState) (rd : RedisState)
    (guildID currentStorageID : String) (redisFail pgFail : Bool) : DBOut Unit :=
  restoreGuildStorage pg rd guildID (previousStorageID pg guildID currentStorageID)
    redisFail pgFail

/-- `removeGuildInvites`. The `UPDATE … RETURNING` matches the guild row
(or nothing); when it matches nothing, `rows[0].guild_storage_id` throws a
TypeError before the cache update and before the epoch INSERT. The
randomly generated storage id is the `freshStorageID` argument, `now` the
`new Date()` timestamp. Modelled on the fault-free store path. -/
def removeGuildInvites (pg : PgState) (rd : RedisState)
    (guildID freshStorageID : String) (now : Int) : DBOut String :=
  let pg1 : PgState :=
    { pg with
      guilds := pg.guilds.map (fun r =>
        if r.guild_id == guildID then { r with guild_storage_id := some freshStorageID } else r) }
  if !(pg.guilds.any (fun r => r.guild_id == guildID)) then
    { res := .error .jsTypeError, pg := pg1, redis := rd }
  else
    let rd' :=
      { rd with
        guildHash := fun k =>
          if k = guildKey guildID then
            some (hashSet ((rd.guildHash k).getD []) "storageID" freshStorageID)
          else rd.guildHash k }
    let pg2 : PgState :=
      { pg1 with
        guild_storages := pg1.guild_storages ++
          [{ guild_id := guildID, storage_id := freshStorageID, created_at := now }] }
    { res := .ok freshStorageID, pg := pg2, redis := rd' }

/-- Result shape of `fetchGuildSettings`. Every property can be absent
(`undefined`/`null`): on the lazy-provisioning path the INSERT only has
`RETURNING guild_storage_id`, so all the other properties read from
`rows[0]` are `undefined`. The source property `prefix` is the field
`cmdPrefix`. -/
structure GuildSettings where
  guildID : Option String
  storageID : Option String
  language : Option String
  cmdPrefix : Option String
  cmdChannel : Option String
  fakeThreshold : Option Int
deriving Repr, DecidableEq

/-- Formatting of a full `guilds` row into settings. -/
def settingsOfRow (r : GuildRow) : GuildSettings :=
  { guildID := some r.guild_id
    storageID := r.guild_storage_id
    language := some r.guild_language
    cmdPrefix := some r.guildPrefix
    cmdChannel := r.guild_cmd_channel
    fakeThreshold := r.guild_fake_threshold }

/-- The `setHash` payload of `fetchGuildSettings`: all six properties are
written (ioredis coerces `null`/`undefined` values to `""`). -/
def hashOfSettings (s : GuildSettings) : List (String × String) :=
  [("guildID", s.guildID.getD ""),
   ("storageID", s.storageID.getD ""),
   ("language", s.language.getD ""),
   ("prefix", s.cmdPrefix.getD ""),
   ("cmdChannel", s.cmdChannel.getD ""),
   ("fakeThreshold", match s.fakeThreshold with | some n => toString n | none => "")]

/-- `fetchGuildSettings`. Cache hit requires a truthy `guildID` hash
field. On a miss the guilds row is read and, if absent, lazily provisioned
with the defaults (`'en-US'`, `'+'`, nulls, the fresh storage id) plus the
first `guild_storages` epoch; the repopulating `setHash` is
fire-and-forget, so the read returns the same value whether or not the
cache write lands (`cacheWriteOk`). -/
def fetchGuildSettings (pg : PgState) (rd : RedisState)
    (guildID freshStorageID : String) (now : Int) (cacheWriteOk : Bool) :
    GuildSettings × PgState × RedisState :=
  let h := (rd.guildHash (guildKey guildID)).getD []
  if truthy (hashGet h "guildID") then
    ({ guildID := hashGet h "guildID"
       storageID := hashGet h "storageID"
       language := hashGet h "language"
       cmdPrefix := hashGet h "prefix"
       cmdChannel := jsOrNull (hashGet h "cmdChannel")
       fakeThreshold :=
         match hashGet h "fakeThreshold" with
         | some v => if v == "" then none else jsParseInt v
         | none => none }, pg, rd)
  else
    match (pg.guilds.filter (fun r => r.guild_id == guildID)).head? with
    | some r =>
      let s := settingsOfRow r
      let rd' :=
        if cacheWriteOk then
          { rd with
            guildHash := fun k =>
              if k = guildKey guildID then
                some (hashSetMany ((rd.guildHash k).getD []) (hashOfSettings s))
              else rd.guildHash k }
        else rd
      (s, pg, rd')
    | none =>
      let newRow : GuildRow :=
        { guild_id := guildID, guild_language := "en-US", guildPrefix := "+"
          guild_cmd_channel := none, guild_fake_threshold := none
          guild_storage_id := some freshStorageID }
      let pg' : PgState :=
        { pg with
          guilds := pg.guilds ++ [newRow]
          guild_storages := pg.guild_storages ++
            [{ guild_id := guildID, storage_id := freshStorageID, created_at := now }] }
      let s : GuildSettings :=
        { guildID := none, storageID := some freshStorageID, language := none
          cmdPrefix := none, cmdChannel := none, fakeThreshold := none }
      let rd' :=
        if cacheWriteOk then
          { rd with
            guildHash := fun k =>
              if k = guildKey guildID then
                some (hashSetMany ((rd.guildHash k).getD []) (hashOfSettings s))
              else rd.guildHash k }
        else rd
      (s, pg', rd')

/-- Allow-list of `updateGuildSetting`. -/
def guildSettingAllow : List String :=
  ["language", "prefix", "cmd_channel", "fake_threshold", "storage_id"]

/-- Dynamic-column write `SET guild_<name> = $1` on a `guilds` row. -/
def GuildRow.setCol (r : GuildRow) (col : String) (v : DBVal) : GuildRow :=
  if col == "guild_language" then { r with guild_language := v.asStr r.guild_language }
  else if col == "guild_prefix" then { r with guildPrefix := v.asStr r.guildPrefix }
  else if col == "guild_cmd_channel" then { r with guild_cmd_channel := v.asOptStr }
  else if col == "guild_fake_threshold" then { r with guild_fake_threshold := v.asOptInt }
  else if col == "guild_storage_id" then { r with guild_storage_id := v.asOptStr }
  else r

/-- `updateGuildSetting`: allow-list check (throws `unknown_guild_setting`
before either store is touched), then concurrent write-through: the cache
hash field keyed by the *camelCase* name, the Postgres column keyed by the
snake-cased name, awaited via `Promise.all`. -/
def updateGuildSetting (pg : PgState) (rd : RedisState) (guildID settingName : String)
    (newSettingValue : DBVal) (redisFail pgFail : Bool) : DBOut Unit :=
  if !(guildSettingAllow.contains (snakeCase settingName)) then
    { res := .error (.unknownSetting "unknown_guild_setting"), pg := pg, redis := rd }
  else
    let rd' :=
      if redisFail then rd
      else
        { rd with
          guildHash := fun k =>
            if k = guildKey guildID then
              some (hashSet ((rd.guildHash k).getD []) settingName newSettingValue.toRedisString)
            else rd.guildHash k }
    let pg' :=
      if pgFail then pg
      else
        { pg with
          guilds := pg.guilds.map (fun r =>
            if r.guild_id == guildID then
              GuildRow.setCol r ("guild_" ++ snakeCase settingName) newSettingValue
            else r) }
    { res := if redisFail || pgFail then .error .storeFailure else .ok ()
      pg := pg', redis := rd' }

/-- Allow-list of `updateGuildSubscription`. -/
def subscriptionAllow : List String :=
  ["expires_at", "created_at", "sub_label", "guilds_count", "patreon_user_id",
   "cancelled", "sub_invalidated"]

/-- Dynamic-column write on a `subscriptions` row. -/
def SubRow.setCol (r : SubRow) (col : String) (v : DBVal) : SubRow :=
  if col == "expires_at" then { r with expires_at := v.asIntOr r.expires_at }
  else if col == "created_at" then { r with created_at := v.asIntOr r.created_at }
  else if col == "sub_label" then { r with sub_label := v.asOptStr }
  else if col == "guilds_count" then { r with guilds_count := v.asIntOr r.guilds_count }
  else if col == "patreon_user_id" then { r with patreon_user_id := v.asOptStr }
  else if col == "cancelled" then { r with cancelled := v.asBoolOr r.cancelled }
  else if col == "sub_invalidated" then { r with sub_invalidated := v.asBoolOr r.sub_invalidated }
  else r

/-- JS object merge `{ …sub, …{ [settingName]: v } }` on a cached
subscription: a camelCase property of the formatted shape is overwritten;
any other property name lands outside the formatted shape and is not
modelled (no theorem exercises it). -/
def CachedSub.setField (r : CachedSub) (f : String) (v : DBVal) : CachedSub :=
  if f == "expiresAt" then { r with expiresAt := v.asIntOr r.expiresAt }
  else if f == "createdAt" then { r with createdAt := v.asIntOr r.createdAt }
  else if f == "subLabel" then { r with subLabel := v.asOptStr }
  else if f == "guildsCount" then { r with guildsCount := v.asIntOr r.guildsCount }
  else if f == "patreonUserID" then { r with patreonUserID := v.asOptStr }
  else if f == "cancelled" then { r with cancelled := some (v.asBoolOr false) }
  else if f == "subInvalidated" then { r with subInvalidated := some (v.asBoolOr false) }
  else r

/-- The `{ …undefined, …{ [k]: v } }` object produced when
`find` locates no cached subscription with the given id; its absent
properties are modelled by defaults (no theorem exercises this corner). -/
def CachedSub.undef : CachedSub :=
  { id := "", expiresAt := 0, createdAt := 0, subLabel := none
    guildsCount := 0, patreonUserID := none }

/-- `updateGuildSubscription`: allow-list check (throws
`unknown_guild_setting` before either store is touched); then the cached
subscription list, when present, is patched wholesale (the matching entry
is rewritten and moved to the back) while the Postgres row is updated, via
`Promise.all`. When the cache has no entry the cache write is skipped. -/
def updateGuildSubscription (pg : PgState) (rd : RedisState)
    (subID guildID settingName : String) (newSettingValue : DBVal)
    (redisFail pgFail : Bool) : DBOut Unit :=
  if !(subscriptionAllow.contains (snakeCase settingName)) then
    { res := .error (.unknownSetting "unknown_guild_setting"), pg := pg, redis := rd }
  else
    let rd' :=
      if redisFail then rd
      else
        match rd.subsStr (subsKey guildID) with
        | none => rd
        | some subs =>
          let target := (subs.find? (fun sub => sub.id == subID)).getD CachedSub.undef
          let newList :=
            (subs.filter (fun sub => !(sub.id == subID))) ++
              [CachedSub.setField target settingName newSettingValue]
          { rd with
            subsStr := fun k => if k = subsKey guildID then some newList else rd.subsStr k }
    let pg' :=
      if pgFail then pg
      else
        { pg with
          subscriptions := pg.subscriptions.map (fun s =>
            if s.id == subID then SubRow.setCol s (snakeCase settingName) newSettingValue
            else s) }
    { res := if redisFail || pgFail then .error .storeFailure else .ok ()
      pg := pg', redis := rd' }

/-- Allow-list of `updateGuildAlert`. -/
def alertAllow : List String :=
  ["channel_id", "message", "invite_count", "alert_type"]

/-- Dynamic-column write on a `guild_alerts` row. -/
def AlertRow.setCol (r : AlertRow) (col : String) (v : DBVal) : AlertRow :=
  if col == "channel_id" then { r with channel_id := v.asStr r.channel_id }
  else if col == "message" then { r with message := v.asStr r.message }
  else if col == "invite_count" then { r with invite_count := v.asIntOr r.invite_count }
  else if col == "alert_type" then { r with alert_type := v.asStr r.alert_type }
  else r

/-- `updateGuildAlert`: allow-list check (throws
`unknown_guild_alert_setting` before either store is touched); then the
alert cache key is *deleted* (wholesale invalidation) while the Postgres
row is updated, via `Promise.all`. -/
def updateGuildAlert (pg : PgState) (rd : RedisState) (guildID : String)
    (alertID : Int) (settingName : String) (newSettingValue : DBVal)
    (redisFail pgFail : Bool) : DBOut Unit :=
  if !(alertAllow.contains (snakeCase settingName)) then
    { res := .error (.unknownSetting "unknown_guild_alert_setting"), pg := pg, redis := rd }
  else
    let rd' :=
      if redisFail then rd
      else
        { rd with
          alertsStr := fun k => if k = alertsKey guildID then none else rd.alertsStr k }
    let pg' :=
      if pgFail then pg
      else
        { pg with
          guild_alerts := pg.guild_alerts.map (fun a =>
            if a.id == alertID && a.guild_id == guildID then
              AlertRow.setCol a (snakeCase settingName) newSettingValue
            else a) }
    { res := if redisFail || pgFail then .error .storeFailure else .ok ()
      pg := pg', redis := rd' }

/-- `addGuildAlert`: INSERT (awaited first; `newAlertID` is the
`RETURNING id` serial), then the cached list, when present, is patched in
place by appending the new alert; when absent the cache write is skipped
(`if (!alerts) return`). Fault-free model. -/
def addGuildAlert (pg : PgState) (rd : RedisState) (guildID : String)
    (inviteCount : Int) (channelID message alertType : String) (newAlertID : Int) :
    DBOut Unit :=
  let row : AlertRow :=
    { id := newAlertID, guild_id := guildID, invite_count := inviteCount
      channel_id := channelID, message := message, alert_type := alertType }
  let pg' : PgState := { pg with guild_alerts := pg.guild_alerts ++ [row] }
  let newCached : CachedAlert :=
    { id := newAlertID, guildID := guildID, inviteCount := inviteCount
      channelID := channelID, message := message, type := alertType }
  let rd' :=
    match rd.alertsStr (alertsKey guildID) with
    | none => rd
    | some alerts =>
      { rd with
        alertsStr := fun k =>
          if k = alertsKey guildID then some (alerts ++ [newCached]) else rd.alertsStr k }
  { res := .ok (), pg := pg', redis := rd' }

/-- `removeGuildAlert`: the cached list, when present, is patched in place
by filtering the alert out; when absent the cache write is skipped. The
Postgres DELETE runs concurrently (`Promise.all`). Fault-free model. -/
def removeGuildAlert (pg : PgState) (rd : RedisState) (guildID : String)
    (alertID : Int) : DBOut Unit :=
  let rd' :=
    match rd.alertsStr (alertsKey guildID) with
    | none => rd
    | some alerts =>
      { rd with
        alertsStr := fun k =>
          if k = alertsKey guildID then some (alerts.filter (fun a => !(a.id == alertID)))
          else rd.alertsStr k }
  let pg' : PgState :=
    { pg with
      guild_alerts := pg.guild_alerts.filter (fun a =>
        !(a.id == alertID && a.guild_id == guildID)) }
  { res := .ok (), pg := pg', redis := rd' }

/-- `fetchGuildAlerts`: cache hit returns the cached list (the per-entry
re-parsing is the identity in this typed model); on a miss the rows are
read, formatted, returned, and the cache repopulated fire-and-forget
(`cacheWriteOk`). -/
def fetchGuildAlerts (pg : PgState) (rd : RedisState) (guildID : String)
    (cacheWriteOk : Bool) : List CachedAlert × RedisState :=
  match rd.alertsStr (alertsKey guildID) with
  | some l => (l, rd)
  | none =>
    let formatted :=
      (pg.guild_alerts.filter (fun a => a.guild_id == guildID)).map (fun a =>
        { id := a.id, guildID := a.guild_id, inviteCount := a.invite_count
          channelID := a.channel_id, message := a.message, type := a.alert_type : CachedAlert })
    let rd' :=
      if cacheWriteOk then
        { rd with
          alertsStr := fun k =>
            if k = alertsKey guildID then some formatted else rd.alertsStr k }
      else rd
    (formatted, rd')

/-- `updateGuildPlugin`. The redis patch reads the cached list and spreads
it: when the key is absent the spread of `null` throws a TypeError inside
the promise chain, so `Promise.all` rejects — while the Postgres
upsert (SELECT then UPDATE or INSERT) still lands. Fault-free store
model. -/
def updateGuildPlugin (pg : PgState) (rd : RedisState)
    (guildID pluginName newPluginData : String) : DBOut Unit :=
  let pgUpserted : PgState :=
    if pg.guild_plugins.any (fun p => p.plugin_name == pluginName && p.guild_id == guildID) then
      { pg with
        guild_plugins := pg.guild_plugins.map (fun p =>
          if p.plugin_name == pluginName && p.guild_id == guildID then
            { p with plugin_data := newPluginData }
          else p) }
    else
      { pg with
        guild_plugins := pg.guild_plugins ++
          [{ guild_id := guildID, plugin_name := pluginName, plugin_data := newPluginData }] }
  match rd.pluginsStr (pluginsKey guildID) with
  | none => { res := .error .jsTypeError, pg := pgUpserted, redis := rd }
  | some plugins =>
    let newList :=
      (plugins.filter (fun p => !(p.pluginName == pluginName))) ++
        [{ guildID := guildID, pluginName := pluginName, pluginData := newPluginData }]
    { res := .ok ()
      pg := pgUpserted
      redis :=
        { rd with
          pluginsStr := fun k =>
            if k = pluginsKey guildID then some newList else rd.pluginsStr k } }

/-- `addGuildBlacklistedUser`: the cached list, when present, is patched
in place by appending; when absent the cache write is skipped
(`if (!blacklisted) return`). The Postgres INSERT runs concurrently.
Fault-free model. -/
def addGuildBlacklistedUser (pg : PgState) (rd : RedisState)
    (guildID userID : String) : DBOut Unit :=
  let rd' :=
    match rd.blacklistStr (blacklistedKey guildID) with
    | none => rd
    | some l =>
      { rd with
        blacklistStr := fun k =>
          if k = blacklistedKey guildID then some (l ++ [userID]) else rd.blacklistStr k }
  { res := .ok ()
    pg :=
      { pg with
        guild_blacklisted_users := pg.guild_blacklisted_users ++
          [{ guild_id := guildID, user_id := userID }] }
    redis := rd' }

/-- `createGuildSubscription`. Both INSERTs are awaited first
(`newSubID` is the `RETURNING id`); then the cached subscription list is
read and spread: when the key is absent the spread of `null` throws a
TypeError, rejecting the operation *after* the durable writes landed.
Fault-free store model. -/
def createGuildSubscription (pg : PgState) (rd : RedisState) (guildID : String)
    (expiresAt createdAt : Int) (subLabel : Option String) (guildsCount : Int)
    (patreonUserID : Option String) (newSubID : String) : DBOut CachedSub :=
  let pg' : PgState :=
    { pg with
      subscriptions := pg.subscriptions ++
        [{ id := newSubID, expires_at := expiresAt, created_at := createdAt
           sub_label := subLabel, guilds_count := guildsCount
           patreon_user_id := patreonUserID, cancelled := false, sub_invalidated := false }]
      guilds_subscriptions := pg.guilds_subscriptions ++
        [{ sub_id := newSubID, guild_id := guildID }] }
  let newSub : CachedSub :=
    { id := newSubID, expiresAt := expiresAt, createdAt := createdAt
      subLabel := subLabel, guildsCount := guildsCount, patreonUserID := patreonUserID }
  match rd.subsStr (subsKey guildID) with
  | none => { res := .error .jsTypeError, pg := pg', redis := rd }
  | some subs =>
    { res := .ok newSub
      pg := pg'
      redis :=
        { rd with
          subsStr := fun k =>
            if k = subsKey guildID then some (subs ++ [newSub]) else rd.subsStr k } }

/-- The SQL net-invites expression
`invites_regular - invites_leaves + invites_bonus - invites_fake`. -/
def netInvites (m : MemberRow) : Int :=
  m.invites_regular - m.invites_leaves + m.invites_bonus - m.invites_fake

/-- Leaderboard row formatting
(`invites = regular + bonus - leaves - fake`). -/
def lbFormat (m : MemberRow) : LBEntry :=
  { guildID := m.guild_id, userID := m.user_id
    invites := m.invites_regular + m.invites_bonus - m.invites_leaves - m.invites_fake
    regular := m.invites_regular, leaves := m.invites_leaves
    bonus := m.invites_bonus, fake := m.invites_fake }

/-- `fetchGuildLeaderboard`. Cache hit returns the cached list. On a miss
the members with positive net invites are selected, ordered descending by
net invites, optionally limited (`${limit ? `LIMIT ${limit}` : ''}` — a
`limit` of `0` is falsy and applies no LIMIT), formatted, returned; the
cache repopulation *and* the `expire(key, 10)` are fire-and-forget,
modelled together by `cacheWriteOk`. -/
def fetchGuildLeaderboard (pg : PgState) (rd : RedisState)
    (guildID storageID : String) (limit : Option Nat) (cacheWriteOk : Bool) :
    List LBEntry × RedisState :=
  match rd.leaderboardStr (leaderboardKey guildID storageID) with
  | some l => (l, rd)
  | none =>
    let rows :=
      sortDescBy netInvites
        (pg.members.filter (fun m =>
          m.guild_id == guildID && m.storage_id == storageID && netInvites m > 0))
    let rows :=
      match limit with
      | none => rows
      | some n => if n == 0 then rows else rows.take n
    let formatted := rows.map lbFormat
    let rd' :=
      if cacheWriteOk then
        { rd with
          leaderboardStr := fun k =>
            if k = leaderboardKey guildID storageID then some formatted
            else rd.leaderboardStr k
          leaderboardTTL := fun k =>
            if k = leaderboardKey guildID storageID then some 10
            else rd.leaderboardTTL k }
      else rd
    (formatted, rd')

/-- The empty durable store. -/
def pgEmpty : PgState :=
  { guilds := [], guild_storages := [], members := [], guild_alerts := []
    subscriptions := [], guilds_subscriptions := [], guild_plugins := []
    guild_blacklisted_users := [] }

/-- The empty cache. -/
def rdEmpty : RedisState :=
  { guildHash := fun _ => none, alertsStr := fun _ => none
    pluginsStr := fun _ => none, blacklistStr := fun _ => none
    subsStr := fun _ => none, leaderboardStr := fun _ => none
    leaderboardTTL := fun _ => none }

/-- A guild row for guild `g1` with the default settings and current
storage `s1`. -/
def g1Row : GuildRow :=
  { guild_id := "g1", guild_language := "en-US", guildPrefix := "+"
    guild_cmd_channel := none, guild_fake_threshold := none
    guild_storage_id := some "s1" }

/-- A one-guild store: `g1` with its single (current) epoch `s1`. -/
def pgG1 : PgState :=
  { pgEmpty with
    guilds := [g1Row]
    guild_storages := [{ guild_id := "g1", storage_id := "s1", created_at := 5 }] }

/-- A store where guild `g1` has epochs `s1` (older) and `s2` (newer) and
one member row under `s2`. -/
def pgC4 : PgState :=
  { pgEmpty with
    guild_storages :=
      [{ guild_id := "g1", storage_id := "s1", created_at := 5 },
       { guild_id := "g1", storage_id := "s2", created_at := 9 }]
    members :=
      [{ guild_id := "g1", user_id := "u1", storage_id := "s2"
         invites_regular := 4, invites_fake := 0, invites_bonus := 2
         invites_leaves := 1 }] }

/-- A store with two members of guild `g1`, epoch `s1`, with *equal*
positive net invites (3 each). -/
def pgLB : PgState :=
  { pgEmpty with
    members :=
      [{ guild_id := "g1", user_id := "u1", storage_id := "s1"
         invites_regular := 3, invites_fake := 0, invites_bonus := 0
         invites_leaves := 0 },
       { guild_id := "g1", user_id := "u2", storage_id := "s1"
         invites_regular := 1, invites_fake := 0, invites_bonus := 2
         invites_leaves := 0 }] }

/-- One cached alert of guild `g1`. -/
def alert0 : CachedAlert :=
  { id := 1, guildID := "g1", inviteCount := 5, channelID := "c1"
    message := "m", type := "join" }

/-- A cache holding the alert list `[alert0]` for guild `g1`. -/
def rdAlerts : RedisState :=
  { rdEmpty with
    alertsStr := fun k => if k = alertsKey "g1" then some [alert0] else none }

/-- Inserting never produces the empty list. -/
theorem insertDescBy_ne_nil {α : Type} (key : α → Int) (a : α) (l : List α) :
    insertDescBy key a l ≠ [] := by
  cases l with
  | nil => simp [insertDescBy]
  | cons x xs =>
    simp only [insertDescBy]
    split <;> simp

/-- Membership through `insertDescBy`. -/
theorem mem_insertDescBy {α : Type} (key : α → Int) (a t : α) (l : List α) :
    t ∈ insertDescBy key a l ↔ t = a ∨ t ∈ l := by
  induction l with
  | nil => simp [insertDescBy]
  | cons x xs ih =>
    simp only [insertDescBy]
    split
    · simp [List.mem_cons]
    · simp only [List.mem_cons, ih]
      tauto

/-- The sort is empty exactly on the empty list. -/
theorem sortDescBy_eq_nil_iff {α : Type} (key : α → Int) (l : List α) :
    sortDescBy key l = [] ↔ l = [] := by
  cases l with
  | nil => simp [sortDescBy]
  | cons x xs =>
    simp only [sortDescBy]
    constructor
    · intro h
      exact absurd h (insertDescBy_ne_nil key x (sortDescBy key xs))
    · intro h
      exact absurd h (List.cons_ne_nil x xs)

/-- Membership through `sortDescBy`. -/
theorem mem_sortDescBy {α : Type} (key : α → Int) (t : α) (l : List α) :
    t ∈ sortDescBy key l ↔ t ∈ l := by
  induction l with
  | nil => simp [sortDescBy]
  | cons x xs ih =>
    simp only [sortDescBy, mem_insertDescBy, ih, List.mem_cons]

/-- Inserting preserves non-increasing order of the keys. -/
theorem pairwise_insertDescBy {α : Type} (key : α → Int) (a : α) (l : List α)
    (h : l.Pairwise (fun x y => key y ≤ key x)) :
    (insertDescBy key a l).Pairwise (fun x y => key y ≤ key x) := by
  induction l with
  | nil => simp [insertDescBy]
  | cons x xs ih =>
    rw [List.pairwise_cons] at h
    obtain ⟨hx, hxs⟩ := h
    simp only [insertDescBy]
    split
    · rename_i hle
      refine List.Pairwise.cons ?_ (List.Pairwise.cons hx hxs)
      intro y hy
      rcases List.mem_cons.mp hy with rfl | hy2
      · exact hle
      · exact le_trans (hx y hy2) hle
    · rename_i hgt
      push_neg at hgt
      refine List.Pairwise.cons ?_ (ih hxs)
      intro y hy
      rcases (mem_insertDescBy key a y xs).mp hy with rfl | hy2
      · exact le_of_lt hgt
      · exact hx y hy2

/-- The sort's keys are non-increasing. -/
theorem pairwise_sortDescBy {α : Type} (key : α → Int) (l : List α) :
    (sortDescBy key l).Pairwise (fun x y => key y ≤ key x) := by
  induction l with
  | nil => simp [sortDescBy]
  | cons x xs ih => exact pairwise_insertDescBy key x (sortDescBy key xs) ih

/-- The head of the sort comes from the list. -/
theorem head_sortDescBy_mem {α : Type} (key : α → Int) (l : List α) (hd : α)
    (h : (sortDescBy key l).head? = some hd) : hd ∈ l :=
  (mem_sortDescBy key hd l).mp (List.mem_of_mem_head? h)

/-- The head of the sort attains the maximal key. -/
theorem head_sortDescBy_max {α : Type} (key : α → Int) (l : List α) (hd : α)
    (h : (sortDescBy key l).head? = some hd) : ∀ t ∈ l, key t ≤ key hd := by
  intro t ht
  have hmem : t ∈ sortDescBy key l := (mem_sortDescBy key t l).mpr ht
  cases hs : sortDescBy key l with
  | nil =>
    rw [hs] at hmem
    simp at hmem
  | cons y ys =>
    rw [hs] at h hmem
    simp only [List.head?_cons, Option.some.injEq] at h
    subst h
    rcases List.mem_cons.mp hmem with rfl | hmem2
    · exact le_refl (key t)
    · have hp := pairwise_sortDescBy key l
      rw [hs, List.pairwise_cons] at hp
      exact hp.1 t hmem2

/-- `hget` after `hset` on a different field is unchanged. -/
theorem hashGet_hashSet_ne (h : Hash) (f v f' : String) (hne : f' ≠ f) :
    hashGet (hashSet h f v) f' = hashGet h f' := by
  have hfv : ((f, v).1 == f') = false := by
    simp only [beq_eq_false_iff_ne, ne_eq]
    exact fun hc => hne hc.symm
  unfold hashGet hashSet
  induction h with
  | nil =>
    simp [List.find?_cons, hfv]
  | cons x xs ih =>
    by_cases hx : (x.1 == f) = true
    · have hxf' : (x.1 == f') = false := by
        simp only [beq_iff_eq] at hx
        simp only [beq_eq_false_iff_ne, ne_eq, hx]
        exact fun hc => hne hc.symm
      rw [List.filter_cons_of_neg (by simp [hx])]
      rw [ih]
      simp [List.find?_cons, hxf']
    · rw [List.filter_cons_of_pos (by simp_all)]
      rw [List.cons_append]
      simp only [List.find?_cons]
      cases hx' : (x.1 == f') with
      | true => simp
      | false => simpa using ih

/-- `hget` after `hset` on the same field reads the written value. -/
theorem hashGet_hashSet_same (h : Hash) (f v : String) :
    hashGet (hashSet h f v) f = some v := by
  unfold hashGet hashSet
  induction h with
  | nil => simp [List.find?_cons]
  | cons x xs ih =>
    by_cases hx : (x.1 == f) = true
    · rw [List.filter_cons_of_neg (by simp [hx])]
      exact ih
    · rw [List.filter_cons_of_pos (by simp_all)]
      rw [List.cons_append]
      simp only [List.find?_cons]
      cases hx2 : (x.1 == f) with
      | true => exact absurd hx2 hx
      | false => simp only []; exact ih

/-- `previousStorageID` is `none` exactly when the guild has no stored
epoch whose id differs from the supplied current id. -/
theorem previousStorageID_none_iff (pg : PgState) (g cur : String) :
    previousStorageID pg g cur = none ↔
      ∀ s ∈ pg.guild_storages, s.guild_id = g → s.storage_id = cur := by
  unfold previousStorageID
  rw [Option.map_eq_none', List.head?_eq_none_iff, sortDescBy_eq_nil_iff,
    List.filter_eq_nil_iff]
  unfold fetchGuildStorages
  constructor
  · intro h s hs hg
    have hmem : storageOfRow s ∈
        (pg.guild_storages.filter (fun r => r.guild_id == g)).map storageOfRow := by
      rw [List.mem_map]
      exact ⟨s, List.mem_filter.mpr ⟨hs, by simp [hg]⟩, rfl⟩
    have hns := h (storageOfRow s) hmem
    simpa [storageOfRow] using hns
  · intro h a ha
    rw [List.mem_map] at ha
    obtain ⟨r, hr, rfl⟩ := ha
    have hrg : r.guild_id = g := by
      have hf := List.mem_filter.mp hr
      simpa using hf.2
    have hcur := h r (List.mem_filter.mp hr).1 hrg
    simp [storageOfRow, hcur]

/-- When `previousStorageID` yields an id, that id belongs to an epoch of
the guild, differs from the current id, and its `created_at` is maximal
among the guild's epochs whose id differs from the current id. -/
theorem previousStorageID_some (pg : PgState) (g cur p : String)
    (h : previousStorageID pg g cur = some p) :
    p ≠ cur ∧ ∃ s, s ∈ pg.guild_storages ∧ s.guild_id = g ∧ s.storage_id = p ∧
      ∀ t ∈ pg.guild_storages, t.guild_id = g → t.storage_id ≠ cur →
        t.created_at ≤ s.created_at := by
  unfold previousStorageID at h
  rw [Option.map_eq_some'] at h
  obtain ⟨e, he, hp⟩ := h
  have hmax := head_sortDescBy_max (fun s => s.createdAt) _ e he
  have hmem := head_sortDescBy_mem (fun s => s.createdAt) _ e he
  rw [List.mem_filter] at hmem
  obtain ⟨hmem1, hne⟩ := hmem
  unfold fetchGuildStorages at hmem1
  rw [List.mem_map] at hmem1
  obtain ⟨r, hr, hfmt⟩ := hmem1
  rw [List.mem_filter] at hr
  subst hfmt
  subst hp
  simp only [storageOfRow] at hne ⊢
  constructor
  · intro hcontra
    rw [hcontra] at hne
    simp at hne
  refine ⟨r, hr.1, by simpa using hr.2, rfl, ?_⟩
  intro t ht htg htc
  have htf : storageOfRow t ∈
      (fetchGuildStorages pg g).filter (fun s => !(s.storageID == cur)) := by
    rw [List.mem_filter]
    constructor
    · unfold fetchGuildStorages
      rw [List.mem_map]
      exact ⟨t, List.mem_filter.mpr ⟨ht, by simp [htg]⟩, rfl⟩
    · simp [storageOfRow, htc]
  have hle := hmax (storageOfRow t) htf
  simpa [storageOfRow] using hle

/-- Durable-store shape of a restore whose Postgres call succeeds. -/
theorem restoreGuildStorage_pg_ok (pg : PgState) (rd : RedisState) (g : String)
    (sid : Option String) (rF : Bool) :
    (restoreGuildStorage pg rd g sid rF false).pg =
      { pg with
        guilds := pg.guilds.map (fun r =>
          if r.guild_id == g then { r with guild_storage_id := sid } else r) } := by
  cases rF <;> rfl

/-- Durable-store shape of a restore whose Postgres call fails. -/
theorem restoreGuildStorage_pg_fail (pg : PgState) (rd : RedisState) (g : String)
    (sid : Option String) (rF : Bool) :
    (restoreGuildStorage pg rd g sid rF true).pg = pg := by
  cases rF <;> rfl

/-- Cache shape of a restore whose Redis call succeeds. -/
theorem restoreGuildStorage_redis_ok (pg : PgState) (rd : RedisState) (g : String)
    (sid : Option String) (pF : Bool) :
    (restoreGuildStorage pg rd g sid false pF).redis =
      { rd with
        guildHash := fun k =>
          if k = guildKey g then
            some (hashSet ((rd.guildHash k).getD []) "storageID"
              (match sid with | some s => s | none => ""))
          else rd.guildHash k } := by
  cases pF <;> rfl

/-- Cache shape of a restore whose Redis call fails. -/
theorem restoreGuildStorage_redis_fail (pg : PgState) (rd : RedisState) (g : String)
    (sid : Option String) (pF : Bool) :
    (restoreGuildStorage pg rd g sid true pF).redis = rd := by
  cases pF <;> rfl

/-- The pointer-reassignment map on the `guilds` table touches no field of
a row other than `guild_storage_id`, and leaves rows of other guilds
entirely alone. -/
theorem guilds_pointer_map_frame (l : List GuildRow) (g : String) (sid : Option String) :
    (∀ r ∈ l, r.guild_id ≠ g →
      r ∈ l.map (fun x => if x.guild_id == g then { x with guild_storage_id := sid } else x)) ∧
    (∀ r ∈ l.map (fun x => if x.guild_id == g then { x with guild_storage_id := sid } else x),
      ∃ r0, r0 ∈ l ∧ r0.guild_id = r.guild_id ∧ r0.guild_language = r.guild_language ∧
        r0.guildPrefix = r.guildPrefix ∧ r0.guild_cmd_channel = r.guild_cmd_channel ∧
        r0.guild_fake_threshold = r.guild_fake_threshold) := by
  constructor
  · intro r hr hne
    rw [List.mem_map]
    refine ⟨r, hr, ?_⟩
    rw [if_neg (by simp [hne])]
  · intro r hr
    rw [List.mem_map] at hr
    obtain ⟨r0, hr0, heq⟩ := hr
    by_cases hc : (r0.guild_id == g) = true
    · rw [if_pos hc] at heq
      refine ⟨r0, hr0, ?_, ?_, ?_, ?_, ?_⟩ <;> rw [← heq]
    · rw [if_neg hc] at heq
      subst heq
      exact ⟨r0, hr0, rfl, rfl, rfl, rfl, rfl⟩

/-- Rows of the `guilds` table whose guild matches get the new pointer
value under the pointer-reassignment map. -/
theorem guilds_pointer_map_sets (l : List GuildRow) (g : String) (sid : Option String) :
    ∀ r ∈ l.map (fun x => if x.guild_id == g then { x with guild_storage_id := sid } else x),
      r.guild_id = g → r.guild_storage_id = sid := by
  intro r hr hrg
  rw [List.mem_map] at hr
  obtain ⟨r0, hr0, heq⟩ := hr
  by_cases hc : (r0.guild_id == g) = true
  · rw [if_pos hc] at heq
    rw [← heq]
  · rw [if_neg hc] at heq
    subst heq
    exact absurd hrg (by simpa using hc)

/-- An aggregate over no matching member rows is zero. -/
theorem sumInvites_eq_zero (ms : List MemberRow) (g p : String) (f : MemberRow → Int)
    (h : ∀ m ∈ ms, m.guild_id = g → m.storage_id ≠ p) :
    sumInvites ms g p f = 0 := by
  unfold sumInvites
  have hnil : ms.filter (fun m => m.guild_id == g && m.storage_id == p) = [] := by
    rw [List.filter_eq_nil_iff]
    intro m hm
    simp only [Bool.and_eq_true, beq_iff_eq, not_and]
    intro hg hp
    exact h m hm hg hp
  rw [hnil]
  rfl

/-- C1 counterexample: with the guild-settings write-through
`updateGuildSetting` (valid field `language`) and with
`restoreGuildStorage`, a FastCache (Redis) write failure while the
DurableStore (Postgres) write succeeds — flags `(redisFail, pgFail) =
(true, false)` — makes the operation report failure, not success, even
though the durable effect landed (second and fourth conjuncts). The claim
that a cache write failure is swallowed is therefore false on the code. -/
theorem C1_counterexample :
    ((updateGuildSetting pgG1 rdEmpty "g1" "language" (DBVal.str "fr") true false).res ≠
      Except.ok ()) ∧
    ((updateGuildSetting pgG1 rdEmpty "g1" "language" (DBVal.str "fr") true false).pg.guilds =
      [{ g1Row with guild_language := "fr" }]) ∧
    ((restoreGuildStorage pgG1 rdEmpty "g1" (some "s2") true false).res ≠ Except.ok ()) ∧
    ((restoreGuildStorage pgG1 rdEmpty "g1" (some "s2") true false).pg.guilds =
      [{ g1Row with guild_storage_id := some "s2" }]) := by
  refine ⟨?_, by decide, ?_, by decide⟩
  · have hres : (updateGuildSetting pgG1 rdEmpty "g1" "language" (DBVal.str "fr") true false).res =
        Except.error DBError.storeFailure := rfl
    intro hc
    rw [hres] at hc
    exact Except.noConfusion hc
  · have hres : (restoreGuildStorage pgG1 rdEmpty "g1" (some "s2") true false).res =
        Except.error DBError.storeFailure := rfl
    intro hc
    rw [hres] at hc
    exact Except.noConfusion hc

/-- C1 (amended): in a write-through operation the DurableStore and
FastCache writes are issued concurrently and *both* awaited
(`Promise.all`), so a DurableStore failure propagates and a FastCache
write failure propagates as well (it is not swallowed): the operation
reports success exactly when both writes succeed. A cache-only failure
still leaves the durable effect applied (third conjunct). -/
theorem C1_amended_theorem (pg : PgState) (rd : RedisState) (g name sid : String)
    (v : DBVal) (rF pF : Bool)
    (hallow : snakeCase name ∈ guildSettingAllow) :
    ((updateGuildSetting pg rd g name v rF pF).res = Except.ok () ↔
      rF = false ∧ pF = false) ∧
    ((restoreGuildStorage pg rd g (some sid) rF pF).res = Except.ok () ↔
      rF = false ∧ pF = false) ∧
    ((updateGuildSetting pg rd g name v true false).pg =
      (updateGuildSetting pg rd g name v false false).pg) := by
  refine ⟨?_, ?_, ?_⟩
  · cases rF <;> cases pF <;> simp [updateGuildSetting, hallow]
  · cases rF <;> cases pF <;> simp [restoreGuildStorage]
  · simp [updateGuildSetting, hallow]

/-- C1 witness: the amended statement applied to `updateGuildSetting` of
the `language` field at a concrete one-guild store, with both store calls
succeeding. -/
theorem C1_witness :
    snakeCase "language" ∈ guildSettingAllow ∧
    ((updateGuildSetting pgG1 rdEmpty "g1" "language" (DBVal.str "fr") false false).res =
        Except.ok () ↔ (false = false ∧ false = false)) :=
  ⟨by decide,
   (C1_amended_theorem pgG1 rdEmpty "g1" "language" "s2" (DBVal.str "fr") false false
     (by decide)).1⟩

/-- C5: a field-name update on guild settings, subscription fields or
alert fields whose snake-cased name is outside the entity's allow-list
fails with the `UnknownSetting` error (`unknown_guild_setting` /
`unknown_guild_alert_setting`) and performs zero DurableStore writes and
zero FastCache writes: the returned outcome carries both stores exactly as
they were. -/
theorem C5_theorem (pg : PgState) (rd : RedisState) (g subID name : String)
    (aid : Int) (v : DBVal) (rF pF : Bool) :
    (snakeCase name ∉ guildSettingAllow →
      updateGuildSetting pg rd g name v rF pF =
        ⟨Except.error (DBError.unknownSetting "unknown_guild_setting"), pg, rd⟩) ∧
    (snakeCase name ∉ subscriptionAllow →
      updateGuildSubscription pg rd subID g name v rF pF =
        ⟨Except.error (DBError.unknownSetting "unknown_guild_setting"), pg, rd⟩) ∧
    (snakeCase name ∉ alertAllow →
      updateGuildAlert pg rd g aid name v rF pF =
        ⟨Except.error (DBError.unknownSetting "unknown_guild_alert_setting"), pg, rd⟩) := by
  refine ⟨fun h => ?_, fun h => ?_, fun h => ?_⟩
  · simp [updateGuildSetting, h]
  · simp [updateGuildSubscription, h]
  · simp [updateGuildAlert, h]

/-- C5 witness: the unknown field name `color` is rejected by all three
validated update operations at a concrete store, which is returned
untouched. -/
theorem C5_witness :
    (updateGuildSetting pgG1 rdEmpty "g1" "color" (DBVal.str "red") false false =
      ⟨Except.error (DBError.unknownSetting "unknown_guild_setting"), pgG1, rdEmpty⟩) ∧
    (updateGuildSubscription pgG1 rdEmpty "sub1" "g1" "color" (DBVal.str "red") false false =
      ⟨Except.error (DBError.unknownSetting "unknown_guild_setting"), pgG1, rdEmpty⟩) ∧
    (updateGuildAlert pgG1 rdEmpty "g1" 1 "color" (DBVal.str "red") false false =
      ⟨Except.error (DBError.unknownSetting "unknown_guild_alert_setting"), pgG1, rdEmpty⟩) :=
  ⟨(C5_theorem pgG1 rdEmpty "g1" "sub1" "color" 1 (DBVal.str "red") false false).1 (by decide),
   (C5_theorem pgG1 rdEmpty "g1" "sub1" "color" 1 (DBVal.str "red") false false).2.1 (by decide),
   (C5_theorem pgG1 rdEmpty "g1" "sub1" "color" 1 (DBVal.str "red") false false).2.2 (by decide)⟩

/-- C10: when the guild has no `guilds` row, `removeGuildInvites` throws
(`rows[0]` of the UPDATE…RETURNING is `undefined`, so reading
`.guild_storage_id` is a TypeError) before the cache update and before the
epoch INSERT: the durable store and the cache are exactly as before, in
particular no `guild_storages` epoch row was appended. -/
theorem C10_theorem (pg : PgState) (rd : RedisState) (g sid : String) (now : Int)
    (habs : ∀ r ∈ pg.guilds, r.guild_id ≠ g) :
    (removeGuildInvites pg rd g sid now).res = Except.error DBError.jsTypeError ∧
    (removeGuildInvites pg rd g sid now).pg = pg ∧
    (removeGuildInvites pg rd g sid now).redis = rd := by
  have hany : pg.guilds.any (fun r => r.guild_id == g) = false := by
    rw [List.any_eq_false]
    intro r hr
    simp [habs r hr]
  have hmap : pg.guilds.map (fun r =>
      if r.guild_id = g then { r with guild_storage_id := some sid } else r) = pg.guilds := by
    have h1 : pg.guilds.map (fun r =>
        if r.guild_id = g then { r with guild_storage_id := some sid } else r) =
        pg.guilds.map id :=
      List.map_congr_left (fun r hr => by rw [if_neg (habs r hr)]; rfl)
    rw [h1, List.map_id]
  refine ⟨?_, ?_, ?_⟩ <;> simp [removeGuildInvites, hany, hmap]

/-- C10 witness: invite reset of guild `g1` on the empty durable store
errors and leaves both stores unchanged. -/
theorem C10_witness :
    (removeGuildInvites pgEmpty rdEmpty "g1" "s9" 7).res = Except.error DBError.jsTypeError ∧
    (removeGuildInvites pgEmpty rdEmpty "g1" "s9" 7).pg = pgEmpty ∧
    (removeGuildInvites pgEmpty rdEmpty "g1" "s9" 7).redis = rdEmpty :=
  C10_theorem pgEmpty rdEmpty "g1" "s9" 7 (by decide)

/-- C7: the claim's skip-when-absent rule holds for the guarded patch
operations (here `addGuildBlacklistedUser`: cache key stays absent, the
INSERT lands, the operation succeeds), but `updateGuildPlugin` and
`createGuildSubscription` have no such guard: with no cached entry their
patch callback spreads `null`, throwing a TypeError that rejects the whole
operation — the cache key does stay absent and the durable write still
lands, but the mutation does not complete successfully as the claim
requires. -/
theorem C7_code_bug_eval :
    ((updateGuildPlugin pgEmpty rdEmpty "g1" "welcome" "dat").res =
      Except.error DBError.jsTypeError) ∧
    ((updateGuildPlugin pgEmpty rdEmpty "g1" "welcome" "dat").redis.pluginsStr
        (pluginsKey "g1") = none) ∧
    ((updateGuildPlugin pgEmpty rdEmpty "g1" "welcome" "dat").pg.guild_plugins =
      [{ guild_id := "g1", plugin_name := "welcome", plugin_data := "dat" }]) ∧
    ((createGuildSubscription pgEmpty rdEmpty "g1" 50 40 (some "Premium") 1 none "sub1").res =
      Except.error DBError.jsTypeError) ∧
    ((createGuildSubscription pgEmpty rdEmpty "g1" 50 40 (some "Premium") 1 none "sub1").pg.subscriptions =
      [{ id := "sub1", expires_at := 50, created_at := 40, sub_label := some "Premium"
         guilds_count := 1, patreon_user_id := none, cancelled := false
         sub_invalidated := false }]) ∧
    ((addGuildBlacklistedUser pgEmpty rdEmpty "g1" "u1").res = Except.ok ()) ∧
    ((addGuildBlacklistedUser pgEmpty rdEmpty "g1" "u1").redis.blacklistStr
        (blacklistedKey "g1") = none) ∧
    ((addGuildBlacklistedUser pgEmpty rdEmpty "g1" "u1").pg.guild_blacklisted_users =
      [{ guild_id := "g1", user_id := "u1" }]) :=
  ⟨rfl, rfl, rfl, rfl, rfl, rfl, rfl, rfl⟩

/-- C2: on a store with no `guilds` row and no cached hash for `G1`, one
`fetchGuildSettings` call provisions exactly one default settings row
(`en-US`, `+`, nulls, the fresh storage id) and exactly one initial
storage epoch, and a second call returns the same storage id without a
second epoch — but the *returned* object of the provisioning call is not
the defaults: the INSERT only has `RETURNING guild_storage_id`, so
`guildID`, `language`, `prefix`, `cmdChannel` and `fakeThreshold` are all
read off `rows[0]` as `undefined` (third conjunct), where the claim (and
spec property 6) requires `language: 'en-US'`, `prefix: '+'`. The second
call does return the full defaults (fifth conjunct). -/
theorem C2_code_bug_eval :
    ((fetchGuildSettings pgEmpty rdEmpty "G1" "s1" 100 true).2.1.guilds =
      [{ guild_id := "G1", guild_language := "en-US", guildPrefix := "+"
         guild_cmd_channel := none, guild_fake_threshold := none
         guild_storage_id := some "s1" }]) ∧
    ((fetchGuildSettings pgEmpty rdEmpty "G1" "s1" 100 true).2.1.guild_storages =
      [{ guild_id := "G1", storage_id := "s1", created_at := 100 }]) ∧
    ((fetchGuildSettings pgEmpty rdEmpty "G1" "s1" 100 true).1 =
      { guildID := none, storageID := some "s1", language := none
        cmdPrefix := none, cmdChannel := none, fakeThreshold := none }) ∧
    ((fetchGuildSettings
        (fetchGuildSettings pgEmpty rdEmpty "G1" "s1" 100 true).2.1
        (fetchGuildSettings pgEmpty rdEmpty "G1" "s1" 100 true).2.2
        "G1" "zzz" 200 true).1.storageID = some "s1") ∧
    ((fetchGuildSettings
        (fetchGuildSettings pgEmpty rdEmpty "G1" "s1" 100 true).2.1
        (fetchGuildSettings pgEmpty rdEmpty "G1" "s1" 100 true).2.2
        "G1" "zzz" 200 true).1 =
      { guildID := some "G1", storageID := some "s1", language := some "en-US"
        cmdPrefix := some "+", cmdChannel := none, fakeThreshold := none }) ∧
    ((fetchGuildSettings
        (fetchGuildSettings pgEmpty rdEmpty "G1" "s1" 100 true).2.1
        (fetchGuildSettings pgEmpty rdEmpty "G1" "s1" 100 true).2.2
        "G1" "zzz" 200 true).2.1.guild_storages =
      [{ guild_id := "G1", storage_id := "s1", created_at := 100 }]) := by
  refine ⟨by decide, by decide, by decide, by decide, by decide, by decide⟩

/-- C3 counterexample: guild `g1` has `s1` as its only epoch and `s1` is
the supplied current id, so no differing epoch exists. The claim says the
restore is a no-op with the stored pointer unchanged; the code instead
passes the `undefined` selection straight to `restoreGuildStorage`, whose
UPDATE sets the guild's `guild_storage_id` to SQL NULL. -/
theorem C3_counterexample :
    ((restoreGuildInvites pgG1 rdEmpty "g1" "s1" false false).pg.guilds =
      [{ g1Row with guild_storage_id := none }]) ∧
    ((restoreGuildInvites pgG1 rdEmpty "g1" "s1" false false).pg.guilds ≠ pgG1.guilds) :=
  ⟨by decide, by decide⟩

/-- C3 (amended): `restoreGuildInvites` selects the epoch with the
greatest `created_at` among the guild's stored epochs whose id differs
from the supplied current id (first two conjuncts characterise the
selection) and writes that selection into the guild's stored pointer; when
no such epoch exists the selection is `undefined` and the pointer is set
to NULL rather than left unchanged (third conjunct: the written pointer
*is* the selection, `none` included). Rows of other guilds are
untouched. -/
theorem C3_amended_theorem (pg : PgState) (rd : RedisState) (g cur : String) :
    (previousStorageID pg g cur = none ↔
      ∀ s ∈ pg.guild_storages, s.guild_id = g → s.storage_id = cur) ∧
    (∀ p, previousStorageID pg g cur = some p →
      p ≠ cur ∧ ∃ s, s ∈ pg.guild_storages ∧ s.guild_id = g ∧ s.storage_id = p ∧
        ∀ t ∈ pg.guild_storages, t.guild_id = g → t.storage_id ≠ cur →
          t.created_at ≤ s.created_at) ∧
    (∀ r ∈ (restoreGuildInvites pg rd g cur false false).pg.guilds,
      r.guild_id = g → r.guild_storage_id = previousStorageID pg g cur) ∧
    (∀ r ∈ pg.guilds, r.guild_id ≠ g →
      r ∈ (restoreGuildInvites pg rd g cur false false).pg.guilds) := by
  refine ⟨previousStorageID_none_iff pg g cur,
    fun p hp => previousStorageID_some pg g cur p hp, ?_, ?_⟩
  · intro r hr hrg
    exact guilds_pointer_map_sets pg.guilds g (previousStorageID pg g cur) r hr hrg
  · intro r hr hne
    exact (guilds_pointer_map_frame pg.guilds g (previousStorageID pg g cur)).1 r hr hne

/-- C3 witness: with epochs `s1` (the only one) of guild `g1` and current
id `s0`, the selection is `s1`: a differing epoch of maximal
`created_at`. -/
theorem C3_witness :
    ("s1" ≠ "s0" ∧ ∃ s, s ∈ pgG1.guild_storages ∧ s.guild_id = "g1" ∧
      s.storage_id = "s1" ∧
      ∀ t ∈ pgG1.guild_storages, t.guild_id = "g1" → t.storage_id ≠ "s0" →
        t.created_at ≤ s.created_at) :=
  (C3_amended_theorem pgG1 rdEmpty "g1" "s0").2.1 "s1" (by decide)

/-- C4: on any store whose epoch ids are non-empty strings (they are
always 12-character random ids), `countGuildInvites` returns `null`
exactly when the guild has no stored epoch whose id differs from the
supplied current id; otherwise it returns the per-field sums of the Member
rows under a most-recently-created such differing epoch (each sum being
the empty sum `0` when no Member rows exist under that epoch). -/
theorem C4_theorem (pg : PgState) (g cur : String)
    (hids : ∀ s ∈ pg.guild_storages, s.storage_id ≠ "") :
    (countGuildInvites pg g cur = none ↔
      ∀ s ∈ pg.guild_storages, s.guild_id = g → s.storage_id = cur) ∧
    (∀ c, countGuildInvites pg g cur = some c →
      ∃ s, s ∈ pg.guild_storages ∧ s.guild_id = g ∧ s.storage_id ≠ cur ∧
        (∀ t ∈ pg.guild_storages, t.guild_id = g → t.storage_id ≠ cur →
          t.created_at ≤ s.created_at) ∧
        c.regular = sumInvites pg.members g s.storage_id (fun m => m.invites_regular) ∧
        c.leaves = sumInvites pg.members g s.storage_id (fun m => m.invites_leaves) ∧
        c.bonus = sumInvites pg.members g s.storage_id (fun m => m.invites_bonus) ∧
        c.fake = sumInvites pg.members g s.storage_id (fun m => m.invites_fake) ∧
        ((∀ m ∈ pg.members, m.guild_id = g → m.storage_id ≠ s.storage_id) →
          c.regular = 0 ∧ c.leaves = 0 ∧ c.bonus = 0 ∧ c.fake = 0)) := by
  constructor
  · cases hprev : previousStorageID pg g cur with
    | none =>
      have h1 := (previousStorageID_none_iff pg g cur).mp hprev
      constructor
      · intro _
        exact h1
      · intro _
        simp [countGuildInvites, hprev]
    | some p =>
      obtain ⟨hpne, s, hs, hsg, hsid, _hmax⟩ := previousStorageID_some pg g cur p hprev
      have hpne2 : p ≠ "" := by
        rw [← hsid]
        exact hids s hs
      constructor
      · intro hnone
        simp [countGuildInvites, hprev, hpne2] at hnone
      · intro hall
        have hcur := hall s hs hsg
        rw [hsid] at hcur
        exact absurd hcur hpne
  · intro c hc
    cases hprev : previousStorageID pg g cur with
    | none =>
      rw [countGuildInvites, hprev] at hc
      exact Option.noConfusion hc
    | some p =>
      obtain ⟨hpne, s, hs, hsg, hsid, hmax⟩ := previousStorageID_some pg g cur p hprev
      have hpne2 : p ≠ "" := by
        rw [← hsid]
        exact hids s hs
      have hcval : c =
          { regular := sumInvites pg.members g p (fun m => m.invites_regular)
            leaves := sumInvites pg.members g p (fun m => m.invites_leaves)
            bonus := sumInvites pg.members g p (fun m => m.invites_bonus)
            fake := sumInvites pg.members g p (fun m => m.invites_fake) } := by
        simp [countGuildInvites, hprev, hpne2] at hc
        exact hc.symm
      refine ⟨s, hs, hsg, ?_, hmax, ?_, ?_, ?_, ?_, ?_⟩
      · rw [hsid]
        exact hpne
      · rw [hcval, hsid]
      · rw [hcval, hsid]
      · rw [hcval, hsid]
      · rw [hcval, hsid]
      · intro hnom
        have hnom2 : ∀ m ∈ pg.members, m.guild_id = g → m.storage_id ≠ p := by
          intro m hm hmg
          rw [← hsid]
          exact hnom m hm hmg
        rw [hcval]
        exact ⟨sumInvites_eq_zero pg.members g p (fun m => m.invites_regular) hnom2,
               sumInvites_eq_zero pg.members g p (fun m => m.invites_leaves) hnom2,
               sumInvites_eq_zero pg.members g p (fun m => m.invites_bonus) hnom2,
               sumInvites_eq_zero pg.members g p (fun m => m.invites_fake) hnom2⟩

/-- C4 witness: on the two-epoch store the theorem's characterisation of
the `null` return holds at `(g1, s1)` (where the differing epoch `s2`
exists, so the count is not `null`). -/
theorem C4_witness :
    (∀ s ∈ pgC4.guild_storages, s.storage_id ≠ "") ∧
    (countGuildInvites pgC4 "g1" "s1" = none ↔
      ∀ s ∈ pgC4.guild_storages, s.guild_id = "g1" → s.storage_id = "s1") :=
  ⟨by decide, (C4_theorem pgC4 "g1" "s1" (by decide)).1⟩

/-- Every entry of the leaderboard pipeline (sort, optional falsy-aware
LIMIT, formatting) is the formatting of some selected member row. -/
theorem lb_pipeline_mem (l : List MemberRow) (lim : Option Nat) (e : LBEntry)
    (he : e ∈ (match lim with
      | none => sortDescBy netInvites l
      | some n =>
        if n == 0 then sortDescBy netInvites l
        else (sortDescBy netInvites l).take n).map lbFormat) :
    ∃ m ∈ l, e = lbFormat m := by
  rw [List.mem_map] at he
  obtain ⟨m, hm, rfl⟩ := he
  have hm2 : m ∈ sortDescBy netInvites l := by
    cases lim with
    | none => exact hm
    | some n =>
      have hm' : m ∈ (if (n == 0) = true then sortDescBy netInvites l
          else (sortDescBy netInvites l).take n) := hm
      by_cases hn : (n == 0) = true
      · rw [if_pos hn] at hm'
        exact hm'
      · rw [if_neg hn] at hm'
        exact List.mem_of_mem_take hm' 
  exact ⟨m, (mem_sortDescBy netInvites m l).mp hm2, rfl⟩

/-- The leaderboard pipeline's output is non-increasing in net invites. -/
theorem lb_pipeline_pairwise (l : List MemberRow) (lim : Option Nat) :
    List.Pairwise (fun a b => b.invites ≤ a.invites)
      ((match lim with
        | none => sortDescBy netInvites l
        | some n =>
          if n == 0 then sortDescBy netInvites l
          else (sortDescBy netInvites l).take n).map lbFormat) := by
  have hp : List.Pairwise (fun x y => netInvites y ≤ netInvites x)
      (match lim with
       | none => sortDescBy netInvites l
       | some n =>
         if n == 0 then sortDescBy netInvites l
         else (sortDescBy netInvites l).take n) := by
    have hp0 := pairwise_sortDescBy netInvites l
    cases lim with
    | none => exact hp0
    | some n =>
      show List.Pairwise (fun x y => netInvites y ≤ netInvites x)
        (if (n == 0) = true then sortDescBy netInvites l
         else (sortDescBy netInvites l).take n)
      by_cases hn : (n == 0) = true
      · rw [if_pos hn]
        exact hp0
      · rw [if_neg hn]
        exact List.Pairwise.sublist (List.take_sublist n (sortDescBy netInvites l)) hp0
  exact hp.map lbFormat (fun a b hab => by
    simp only [lbFormat, netInvites] at hab ⊢
    omega)

/-- C6 counterexample: two members with equal positive net invites (3
each) are both on the leaderboard served from the durable store, so the
result is not *strictly* descending in net invites: it contains the nets
`[3, 3]`. -/
theorem C6_counterexample :
    ((fetchGuildLeaderboard pgLB rdEmpty "g1" "s1" none true).1.map (fun e => e.invites) =
      [3, 3]) ∧
    ¬ List.Pairwise (fun a b => b.invites < a.invites)
        (fetchGuildLeaderboard pgLB rdEmpty "g1" "s1" none true).1 :=
  ⟨by decide, by decide⟩

/-- C6 (amended): a leaderboard served from the durable store contains no
member with net invites ≤ 0, every entry's `invites` equals
`regular + bonus - leaves - fake` over its own counters, the list is
sorted in non-increasing (descending, ties permitted — not strictly
descending) order of net invites, and the cached copy is set to expire
with the fixed TTL of 10 time units even with no invalidating write. -/
theorem C6_amended_theorem (pg : PgState) (rd : RedisState) (g s : String)
    (limit : Option Nat)
    (hmiss : rd.leaderboardStr (leaderboardKey g s) = none) :
    (∀ e ∈ (fetchGuildLeaderboard pg rd g s limit true).1, 0 < e.invites) ∧
    (∀ e ∈ (fetchGuildLeaderboard pg rd g s limit true).1,
      e.invites = e.regular + e.bonus - e.leaves - e.fake) ∧
    List.Pairwise (fun a b => b.invites ≤ a.invites)
      (fetchGuildLeaderboard pg rd g s limit true).1 ∧
    ((fetchGuildLeaderboard pg rd g s limit true).2.leaderboardTTL
      (leaderboardKey g s) = some 10) := by
  have hfst : (fetchGuildLeaderboard pg rd g s limit true).1 =
      (match limit with
       | none => sortDescBy netInvites (pg.members.filter (fun m =>
           m.guild_id == g && m.storage_id == s && netInvites m > 0))
       | some n =>
         if n == 0 then sortDescBy netInvites (pg.members.filter (fun m =>
           m.guild_id == g && m.storage_id == s && netInvites m > 0))
         else (sortDescBy netInvites (pg.members.filter (fun m =>
           m.guild_id == g && m.storage_id == s && netInvites m > 0))).take n).map
        lbFormat := by
    simp only [fetchGuildLeaderboard, hmiss]
  refine ⟨?_, ?_, ?_, ?_⟩
  · intro e he
    rw [hfst] at he
    obtain ⟨m, hm, rfl⟩ := lb_pipeline_mem _ limit e he
    have hmf := List.mem_filter.mp hm
    have hpos : netInvites m > 0 := by
      have h2 := hmf.2
      simp only [Bool.and_eq_true, decide_eq_true_eq] at h2
      exact h2.2
    simp only [lbFormat, netInvites] at hpos ⊢
    omega
  · intro e he
    rw [hfst] at he
    obtain ⟨m, _hm, rfl⟩ := lb_pipeline_mem _ limit e he
    simp [lbFormat]
  · rw [hfst]
    exact lb_pipeline_pairwise _ limit
  · simp [fetchGuildLeaderboard, hmiss]

/-- C6 witness: the amended statement at the equal-nets store with a cold
cache: the TTL of the repopulated leaderboard cache entry is 10. -/
theorem C6_witness :
    (fetchGuildLeaderboard pgLB rdEmpty "g1" "s1" none true).2.leaderboardTTL
      (leaderboardKey "g1" "s1") = some 10 :=
  (C6_amended_theorem pgLB rdEmpty "g1" "s1" none rfl).2.2.2

/-- C8 counterexample: with a cached alert list present, `addGuildAlert`
does not invalidate (delete) the guild's alert cache entry — it patches
the cached list in place, leaving the key present with the appended
alert. The claim that *every* alert mutation invalidates the cache
wholesale is therefore false on the code. -/
theorem C8_counterexample :
    ((addGuildAlert pgG1 rdAlerts "g1" 3 "c2" "m2" "join" 2).redis.alertsStr
        (alertsKey "g1") ≠ none) ∧
    ((addGuildAlert pgG1 rdAlerts "g1" 3 "c2" "m2" "join" 2).redis.alertsStr
        (alertsKey "g1") =
      some [alert0,
            { id := 2, guildID := "g1", inviteCount := 3, channelID := "c2"
              message := "m2", type := "join" }]) :=
  ⟨by decide, by decide⟩

/-- C8 (amended): only `updateGuildAlert` invalidates the guild's alert
cache entry wholesale (first conjunct), so only after it is the next
`fetchGuildAlerts` guaranteed to re-read from the DurableStore (last
conjunct); `addGuildAlert` and `removeGuildAlert` instead patch the cached
list in place when it is present (append, respectively filter) and skip
the cache write when it is absent. -/
theorem C8_amended_theorem (pg : PgState) (rd : RedisState) (g : String)
    (aid newID : Int) (name : String) (v : DBVal) (ic : Int) (ch msg ty : String)
    (l : List CachedAlert) (hallow : snakeCase name ∈ alertAllow) :
    ((updateGuildAlert pg rd g aid name v false false).redis.alertsStr
      (alertsKey g) = none) ∧
    (rd.alertsStr (alertsKey g) = some l →
      (addGuildAlert pg rd g ic ch msg ty newID).redis.alertsStr (alertsKey g) =
        some (l ++ [{ id := newID, guildID := g, inviteCount := ic, channelID := ch
                      message := msg, type := ty }])) ∧
    (rd.alertsStr (alertsKey g) = some l →
      (removeGuildAlert pg rd g aid).redis.alertsStr (alertsKey g) =
        some (l.filter (fun a => !(a.id == aid)))) ∧
    (rd.alertsStr (alertsKey g) = none →
      (addGuildAlert pg rd g ic ch msg ty newID).redis.alertsStr (alertsKey g) = none ∧
      (removeGuildAlert pg rd g aid).redis.alertsStr (alertsKey g) = none) ∧
    ((fetchGuildAlerts (updateGuildAlert pg rd g aid name v false false).pg
        (updateGuildAlert pg rd g aid name v false false).redis g true).1 =
      ((updateGuildAlert pg rd g aid name v false false).pg.guild_alerts.filter
        (fun a => a.guild_id == g)).map (fun a =>
          { id := a.id, guildID := a.guild_id, inviteCount := a.invite_count
            channelID := a.channel_id, message := a.message, type := a.alert_type })) := by
  have hdel : (updateGuildAlert pg rd g aid name v false false).redis.alertsStr
      (alertsKey g) = none := by
    simp [updateGuildAlert, hallow]
  refine ⟨hdel, fun hsome => ?_, fun hsome => ?_,
    fun hnone => ⟨?_, ?_⟩, ?_⟩
  · simp [addGuildAlert, hsome]
  · simp [removeGuildAlert, hsome]
  · simp [addGuildAlert, hnone]
  · simp [removeGuildAlert, hnone]
  · simp [fetchGuildAlerts, hdel]

/-- C8 witness: updating the `message` field of an alert deletes the
cached alert list of the guild. -/
theorem C8_witness :
    (updateGuildAlert pgG1 rdAlerts "g1" 1 "message" (DBVal.str "x")
      false false).redis.alertsStr (alertsKey "g1") = none :=
  (C8_amended_theorem pgG1 rdAlerts "g1" 1 2 "message" (DBVal.str "x") 3 "c" "m" "t" []
    (by decide)).1

/-- C9: `restoreGuildStorage` only reassigns the guild's current-storage
pointer (and, best-effort, the cached pointer hash field): under any
combination of store-call outcomes, no `guild_storages` epoch row is
created, deleted or mutated, every other table is untouched, rows of other
guilds are untouched, every field of a guild row other than
`guild_storage_id` is preserved, the matching rows' pointer becomes the
target id when the Postgres call succeeds, and on the cache side only the
`storageID` field of the guild's settings hash can change. -/
theorem C9_theorem (pg : PgState) (rd : RedisState) (g sid : String) (rF pF : Bool) :
    ((restoreGuildStorage pg rd g (some sid) rF pF).pg.guild_storages =
      pg.guild_storages) ∧
    ((restoreGuildStorage pg rd g (some sid) rF pF).pg.members = pg.members) ∧
    ((restoreGuildStorage pg rd g (some sid) rF pF).pg.guild_alerts = pg.guild_alerts) ∧
    ((restoreGuildStorage pg rd g (some sid) rF pF).pg.subscriptions =
      pg.subscriptions) ∧
    ((restoreGuildStorage pg rd g (some sid) rF pF).pg.guilds_subscriptions =
      pg.guilds_subscriptions) ∧
    ((restoreGuildStorage pg rd g (some sid) rF pF).pg.guild_plugins =
      pg.guild_plugins) ∧
    ((restoreGuildStorage pg rd g (some sid) rF pF).pg.guild_blacklisted_users =
      pg.guild_blacklisted_users) ∧
    (∀ r ∈ pg.guilds, r.guild_id ≠ g →
      r ∈ (restoreGuildStorage pg rd g (some sid) rF pF).pg.guilds) ∧
    (∀ r ∈ (restoreGuildStorage pg rd g (some sid) rF pF).pg.guilds,
      ∃ r0, r0 ∈ pg.guilds ∧ r0.guild_id = r.guild_id ∧
        r0.guild_language = r.guild_language ∧ r0.guildPrefix = r.guildPrefix ∧
        r0.guild_cmd_channel = r.guild_cmd_channel ∧
        r0.guild_fake_threshold = r.guild_fake_threshold) ∧
    (pF = false → ∀ r ∈ (restoreGuildStorage pg rd g (some sid) rF pF).pg.guilds,
      r.guild_id = g → r.guild_storage_id = some sid) ∧
    ((restoreGuildStorage pg rd g (some sid) rF pF).redis.alertsStr = rd.alertsStr) ∧
    ((restoreGuildStorage pg rd g (some sid) rF pF).redis.pluginsStr = rd.pluginsStr) ∧
    ((restoreGuildStorage pg rd g (some sid) rF pF).redis.blacklistStr =
      rd.blacklistStr) ∧
    ((restoreGuildStorage pg rd g (some sid) rF pF).redis.subsStr = rd.subsStr) ∧
    ((restoreGuildStorage pg rd g (some sid) rF pF).redis.leaderboardStr =
      rd.leaderboardStr) ∧
    ((restoreGuildStorage pg rd g (some sid) rF pF).redis.leaderboardTTL =
      rd.leaderboardTTL) ∧
    (∀ k, k ≠ guildKey g →
      (restoreGuildStorage pg rd g (some sid) rF pF).redis.guildHash k =
        rd.guildHash k) ∧
    (∀ f2, f2 ≠ "storageID" →
      hashGet (((restoreGuildStorage pg rd g (some sid) rF pF).redis.guildHash
          (guildKey g)).getD []) f2 =
        hashGet ((rd.guildHash (guildKey g)).getD []) f2) ∧
    (rF = false →
      hashGet (((restoreGuildStorage pg rd g (some sid) rF pF).redis.guildHash
          (guildKey g)).getD []) "storageID" = some sid) := by
  refine ⟨?_, ?_, ?_, ?_, ?_, ?_, ?_, ?_, ?_, ?_, ?_, ?_, ?_, ?_, ?_, ?_, ?_, ?_, ?_⟩
  · cases rF <;> cases pF <;> rfl
  · cases rF <;> cases pF <;> rfl
  · cases rF <;> cases pF <;> rfl
  · cases rF <;> cases pF <;> rfl
  · cases rF <;> cases pF <;> rfl
  · cases rF <;> cases pF <;> rfl
  · cases rF <;> cases pF <;> rfl
  · intro r hr hne
    cases pF with
    | false =>
      rw [restoreGuildStorage_pg_ok]
      exact (guilds_pointer_map_frame pg.guilds g (some sid)).1 r hr hne
    | true =>
      rw [restoreGuildStorage_pg_fail]
      exact hr
  · intro r hr
    cases pF with
    | false =>
      rw [restoreGuildStorage_pg_ok] at hr
      exact (guilds_pointer_map_frame pg.guilds g (some sid)).2 r hr
    | true =>
      rw [restoreGuildStorage_pg_fail] at hr
      exact ⟨r, hr, rfl, rfl, rfl, rfl, rfl⟩
  · intro hpF r hr hrg
    subst hpF
    rw [restoreGuildStorage_pg_ok] at hr
    exact guilds_pointer_map_sets pg.guilds g (some sid) r hr hrg
  · cases rF <;> cases pF <;> rfl
  · cases rF <;> cases pF <;> rfl
  · cases rF <;> cases pF <;> rfl
  · cases rF <;> cases pF <;> rfl
  · cases rF <;> cases pF <;> rfl
  · cases rF <;> cases pF <;> rfl
  · intro k hk
    cases rF with
    | false =>
      rw [restoreGuildStorage_redis_ok]
      exact if_neg hk
    | true =>
      rw [restoreGuildStorage_redis_fail]
  · intro f2 hf2
    cases rF with
    | false =>
      rw [restoreGuildStorage_redis_ok]
      show hashGet ((if guildKey g = guildKey g then
          some (hashSet ((rd.guildHash (guildKey g)).getD []) "storageID" sid)
        else rd.guildHash (guildKey g)).getD []) f2 =
        hashGet ((rd.guildHash (guildKey g)).getD []) f2
      rw [if_pos rfl]
      exact hashGet_hashSet_ne ((rd.guildHash (guildKey g)).getD []) "storageID" sid f2 hf2
    | true =>
      rw [restoreGuildStorage_redis_fail]
  · intro hrF
    subst hrF
    rw [restoreGuildStorage_redis_ok]
    show hashGet ((if guildKey g = guildKey g then
        some (hashSet ((rd.guildHash (guildKey g)).getD []) "storageID" sid)
      else rd.guildHash (guildKey g)).getD []) "storageID" = some sid
    rw [if_pos rfl]
    exact hashGet_hashSet_same ((rd.guildHash (guildKey g)).getD []) "storageID" sid

/-- C9 witness: a concrete restore of guild `g1` to `s2` leaves the epoch
table and, for example, the alert cache untouched. -/
theorem C9_witness :
    ((restoreGuildStorage pgG1 rdEmpty "g1" (some "s2") false false).pg.guild_storages =
      pgG1.guild_storages) ∧
    ((restoreGuildStorage pgG1 rdEmpty "g1" (some "s2") false false).pg.members =
      pgG1.members) :=
  ⟨(C9_theorem pgG1 rdEmpty "g1" "s2" false false).1,
   (C9_theorem pgG1 rdEmpty "g1" "s2" false false).2.1⟩
